import Mathlib

/-!
Verification development for the spanner-emulator-mux-session reproduction
harness: a shallow embedding of `run_all.sh` (both matrix variants) and
`main.go`, with theorems settling the specification claims.
-/

namespace MuxRepro

/-! ### Orchestrator classification (run_all.sh, `run_test`)

`run_test` classifies a scenario run by
`... 2>&1 | tail -1 | grep -q "^PASS"`:
the run is PASS when the final output line matches the anchored pattern
`^PASS`, i.e. when the final line begins with the four characters `PASS`;
otherwise (including when there is no output at all) it is BUG. -/

inductive Verdict where
  | PASS
  | BUG
deriving DecidableEq, Repr

/-- The semantics of `grep -q "^PASS"` applied to one line: the line's
character sequence starts with the four characters of `PASS`. -/
def matchesPASS (l : String) : Bool :=
  "PASS".data.isPrefixOf l.data

/-- `tail -1 | grep -q "^PASS"` over the captured output lines
(`tail -1` of empty output yields no line, so `grep` fails). -/
def classify (out : List String) : Verdict :=
  match out.getLast? with
  | none => .BUG
  | some l => if matchesPASS l then .PASS else .BUG

/-! ### Matrix enumeration

Variant 2 of `run_all.sh` iterates
`rw_env ∈ {true, false, ""}` (outermost), `delete ∈ {stmt-mutation,
rw-mutation, apply, stmt-dml}`, `begin ∈ {default, inlined, explicit}`,
skipping (`continue`) the points with `delete == apply && begin != default`.
The empty string for `rw_env` means the environment variable is left unset. -/

def rwEnvList : List String := ["true", "false", ""]

def deleteListV2 : List String := ["stmt-mutation", "rw-mutation", "apply", "stmt-dml"]

def beginList : List String := ["default", "inlined", "explicit"]

structure PointV2 where
  rw : String
  deleteMode : String
  beginMode : String
deriving DecidableEq, Repr

/-- The ordered sequence of scenario points produced by the variant-2 main
loop of `run_all.sh` (nested `for` loops with the apply/non-default
`continue`). -/
def enumV2 : List PointV2 :=
  rwEnvList.flatMap fun rw =>
    deleteListV2.flatMap fun d =>
      beginList.filterMap fun b =>
        if d == "apply" && b != "default" then none
        else some ⟨rw, d, b⟩

/-- The unrestricted cartesian product of the three variant-2 axes, for
comparison with `enumV2`. -/
def fullProductV2 : List PointV2 :=
  rwEnvList.flatMap fun rw =>
    deleteListV2.flatMap fun d =>
      beginList.map fun b => ⟨rw, d, b⟩

/-- Variant 1 of `run_all.sh` iterates `rw_env ∈ {true, false, ""}`,
`insert ∈ {rw, stmt}`, `delete ∈ {stmt-mutation, apply, stmt-dml}`,
with no exclusion. -/
structure PointV1 where
  rw : String
  insertMode : String
  deleteMode : String
deriving DecidableEq, Repr

def insertListV1 : List String := ["rw", "stmt"]

def deleteListV1 : List String := ["stmt-mutation", "apply", "stmt-dml"]

def enumV1 : List PointV1 :=
  rwEnvList.flatMap fun rw =>
    insertListV1.flatMap fun i =>
      deleteListV1.map fun d => ⟨rw, i, d⟩

/-! ### Scenario Runner (main.go)

The runner's data operations against the emulator are recorded as a trace.
The emulator's table `T` is modelled as a list of `(PK, Val)` rows; the
model backend is healthy (every RPC succeeds and deletes take effect), which
is the regime the control-flow claims quantify over. -/

deriving instance DecidableEq for Except

abbrev Table := List (Int × Int)

def dbInsert (t : Table) (pk v : Int) : Table := t ++ [(pk, v)]

def dbDelete (t : Table) (pk : Int) : Table := t.filter fun r => r.1 != pk

/-- The data operations `reproduce` can issue. `applyDelete` mirrors
`client.Apply`, which takes no begin-strategy parameter; the three other
delete constructors carry the `-begin` value used by their transaction. -/
inductive Op where
  | insertDML (pk v : Int)
  | stmtMutationDelete (bm : String) (pk : Int)
  | rwMutationDelete (bm : String) (pk : Int)
  | applyDelete (pk : Int)
  | stmtDMLDelete (bm : String) (pk : Int)
  | readRow (pk : Int)
deriving DecidableEq, Repr

/-- `parseBeginOption` from main.go: maps the `-begin` flag to a
`BeginTransactionOption` (modelled by the validated mode string) or fails
with `unknown begin mode`. -/
def parseBeginOption (bm : String) : Except String String :=
  if bm = "default" then .ok bm
  else if bm = "inlined" then .ok bm
  else if bm = "explicit" then .ok bm
  else .error ("unknown begin mode: " ++ bm)

def validBegin (bm : String) : Bool :=
  bm == "default" || bm == "inlined" || bm == "explicit"

/-- Error codes distinguished by the verification read: `codes.NotFound`
versus everything else. -/
inductive ErrCode where
  | notFound
  | other
deriving DecidableEq, Repr

/-- A row returned by `ReadRow`; `col0` is the outcome of
`row.Column(0, &pk)`. -/
structure RowData where
  col0 : Except String Int
deriving DecidableEq, Repr

/-- The data-loss defect message of main.go, naming the still-present key. -/
def bugMsg (pk : Int) : String :=
  "BUG: row PK=" ++ toString pk ++
    " still exists after DELETE succeeded without error"

/-- Step 3 of `reproduce` (main.go lines 175-188), as a function of the
`ReadRow` outcome: `NotFound` is success; any other read error is wrapped
as `read: ...`; a scan error is wrapped as `scan: ...`; a successfully
scanned row yields the data-loss `BUG: row PK=...` error. -/
def verifyStep (res : Except (ErrCode × String) RowData) : Except String Unit :=
  match res with
  | .error (c, m) => if c = .notFound then .ok () else .error ("read: " ++ m)
  | .ok r =>
    match r.col0 with
    | .error e => .error ("scan: " ++ e)
    | .ok pk => .error (bugMsg pk)

/-- The healthy-emulator behaviour of `client.Single().ReadRow` on key `pk`:
a missing row reports `NotFound`, a present row is returned and scans
cleanly. -/
def readRowT (t : Table) (pk : Int) : Except (ErrCode × String) RowData :=
  match t.find? (fun r => r.1 == pk) with
  | none => .error (.notFound, "row not found")
  | some r => .ok ⟨.ok r.1⟩

/-- Classifier for the error-message label taxonomy: does a message carry
the data-loss `BUG:` label (as opposed to the step labels
`read:` / `scan:` / `insert:` / `delete:`)? -/
def msgIsDataLoss (s : String) : Bool :=
  "BUG:".data.isPrefixOf s.data

structure ReproResult where
  res : Except String Unit
  table : Table
  trace : List Op
  logs : List String
deriving DecidableEq, Repr

/-- Step 3 wrapper used by `reproduce`: perform the verification read and
close the run. -/
def step3 (t : Table) (tr : List Op) (lg : List String) : ReproResult :=
  ⟨verifyStep (readRowT t 1), t, tr ++ [.readRow 1], lg⟩

/-- `reproduce` from main.go: parse the begin option, INSERT row (1, 1) via
a declarative `ReadWriteTransaction` DML update, dispatch the DELETE on the
`-delete` flag, then verify.  An unknown `-begin` value fails before the
insert; an unknown `-delete` value fails after it. -/
def reproduce (dm bm : String) (t0 : Table) : ReproResult :=
  match parseBeginOption bm with
  | .error e => ⟨.error e, t0, [], []⟩
  | .ok _ =>
    let t1 := dbInsert t0 1 1
    let tr1 : List Op := [.insertDML 1 1]
    let lg1 : List String := ["INSERT: ReadWriteTransaction (DML)"]
    if dm = "stmt-mutation" then
      step3 (dbDelete t1 1) (tr1 ++ [.stmtMutationDelete bm 1])
        (lg1 ++ ["DELETE: StmtBasedTransaction (BufferWrite, begin=" ++ bm ++ ")"])
    else if dm = "rw-mutation" then
      step3 (dbDelete t1 1) (tr1 ++ [.rwMutationDelete bm 1])
        (lg1 ++ ["DELETE: ReadWriteTransaction (BufferWrite, begin=" ++ bm ++ ")"])
    else if dm = "apply" then
      step3 (dbDelete t1 1) (tr1 ++ [.applyDelete 1])
        (lg1 ++ ["DELETE: client.Apply (begin option N/A)"])
    else if dm = "stmt-dml" then
      step3 (dbDelete t1 1) (tr1 ++ [.stmtDMLDelete bm 1])
        (lg1 ++ ["DELETE: StmtBasedTransaction (DML, begin=" ++ bm ++ ")"])
    else
      ⟨.error ("unknown delete mode: " ++ dm), t1, tr1, lg1⟩

/-! ### main() of main.go -/

/-- `os.Getenv` over an optional environment entry: an unset variable reads
as the empty string. -/
def getenv (v : Option String) : String := v.getD ""

structure HarnessCfg where
  emulatorHost : Option String
  skipSetup : Bool
  setupErr : Option String
deriving DecidableEq, Repr

structure MainResult where
  output : List String
  trace : List Op
  table : Table
deriving DecidableEq, Repr

/-- `main` from main.go: fail fast when `SPANNER_EMULATOR_HOST` is unset or
empty; run `setup` unless `-skip-setup`, turning a setup error into a fatal
`Setup: ...` last line; otherwise run `reproduce` and end the output with
`PASS` or `FAIL: ...`. -/
def mainGo (cfg : HarnessCfg) (dm bm : String) (t0 : Table) : MainResult :=
  if getenv cfg.emulatorHost = "" then
    ⟨["SPANNER_EMULATOR_HOST is not set"], [], t0⟩
  else
    match (if cfg.skipSetup then none else cfg.setupErr) with
    | some e => ⟨["Setup: " ++ e], [], t0⟩
    | none =>
      let r := reproduce dm bm t0
      ⟨r.logs ++ [match r.res with
        | .ok _ => "PASS"
        | .error e => "FAIL: " ++ e], r.trace, r.table⟩

/-! ### Statement-based transaction helpers (main.go, `execStmtDML` and
`execStmtMutation`)

Each helper's interaction with the client is driven by an outcome record
saying which RPC (if any) fails, and is recorded as a trace of transaction
operations. -/

/-- Fault model for one statement-based transaction: the begin call, the
work step (`Query` iteration resp. `BufferWrite`), and the commit each
either succeed (`none`) or fail with a message. -/
structure TxnEnv where
  beginErr : Option String
  stepErr : Option String
  commitErr : Option String
deriving DecidableEq, Repr

inductive TxnOp where
  | beginTxn
  | queryStep
  | bufferStep
  | commitStep
  | rollbackStep
deriving DecidableEq, Repr

/-- `execStmtDML` from main.go: begin a `ReadWriteStmtBasedTransaction`
(failure wrapped as `begin: ...`), run the DELETE statement via `Query`
(on failure: `Rollback`, then `query: ...`), then
`CommitWithReturnResp` — whose error is returned as-is, with no rollback. -/
def execStmtDML (e : TxnEnv) : Except String Unit × List TxnOp :=
  match e.beginErr with
  | some m => (.error ("begin: " ++ m), [.beginTxn])
  | none =>
    match e.stepErr with
    | some m => (.error ("query: " ++ m), [.beginTxn, .queryStep, .rollbackStep])
    | none =>
      match e.commitErr with
      | some m => (.error m, [.beginTxn, .queryStep, .commitStep])
      | none => (.ok (), [.beginTxn, .queryStep, .commitStep])

/-- `execStmtMutation` from main.go: begin, `BufferWrite` the delete
mutation (on failure: `Rollback`, then `buffer write: ...`), then
`CommitWithReturnResp` — whose error is returned as-is, with no rollback. -/
def execStmtMutation (e : TxnEnv) : Except String Unit × List TxnOp :=
  match e.beginErr with
  | some m => (.error ("begin: " ++ m), [.beginTxn])
  | none =>
    match e.stepErr with
    | some m => (.error ("buffer write: " ++ m), [.beginTxn, .bufferStep, .rollbackStep])
    | none =>
      match e.commitErr with
      | some m => (.error m, [.beginTxn, .bufferStep, .commitStep])
      | none => (.ok (), [.beginTxn, .bufferStep, .commitStep])

/-! ### Orchestrator main loop (run_all.sh, variant 2)

Per point, `run_test` restarts the emulator container (`docker run` under
`set -euo pipefail`: a failure there exits the whole script) and then runs
the repro binary, classifying its captured output.  The per-point external
behaviour is abstracted as either a container-start failure or the runner's
output lines. -/

inductive RunOutcome where
  | dockerFail
  | out (lines : List String)

/-- One `run_test` call: `none` models the `set -e` abort on a failed
`docker run`; otherwise the output is classified by the tail-line rule. -/
def runTest (f : PointV2 → RunOutcome) (p : PointV2) : Option Verdict :=
  match f p with
  | .dockerFail => none
  | .out ls => some (classify ls)

/-- Sequentially run the points, appending `(point, verdict)` to the results
array; an aborted script never reaches the report, modelled as `none`. -/
def runPoints (f : PointV2 → RunOutcome) : List PointV2 → Option (List (PointV2 × Verdict))
  | [] => some []
  | p :: ps =>
    match runTest f p with
    | none => none
    | some v =>
      match runPoints f ps with
      | none => none
      | some rs => some ((p, v) :: rs)

/-- The full variant-2 orchestrator run over the enumerated matrix. -/
def runAllV2 (f : PointV2 → RunOutcome) : Option (List (PointV2 × Verdict)) :=
  runPoints f enumV2

/-! ### Variant-1 Scenario Runner (spec-modelled) -/

/-- Modelled from the spec: the data operations of the variant-1 scenario
runner (the main.go revision accepting an `-insert` flag is not in the
repository snapshot; only its caller, variant 1 of `run_all.sh`, is).
`insertRWTxn` is the declarative-transaction insert, `insertStmtTxn` the
statement-based-transaction insert; deletes carry the `-delete` mode. -/
inductive OpV1 where
  | insertRWTxn (pk v : Int)
  | insertStmtTxn (pk v : Int)
  | deleteOp (dm : String) (pk : Int)
  | readRow (pk : Int)
deriving DecidableEq, Repr

structure ReproResultV1 where
  res : Except String Unit
  table : Table
  trace : List OpV1
deriving DecidableEq, Repr

/-- The insert operation the spec selects for an `InsertMethod` value:
`rw` is the declarative transaction, `stmt` the statement-based one. -/
def insertOpOf (im : String) : OpV1 :=
  if im = "rw" then .insertRWTxn 1 1 else .insertStmtTxn 1 1

/-- Modelled from the spec: the variant-1 scenario runner (its main.go
revision is missing from the snapshot).  Step 1 inserts the fixed row
(PK = 1, Val = 1) by the selected `InsertMethod` (`rw` =
declarative-transaction, `stmt` = statement-based-transaction); Step 2
deletes PK = 1 by the selected `DeleteMethod`; Step 3 is the same
verification read as the source `reproduce`. -/
def reproduceV1 (im dm : String) (t0 : Table) : ReproResultV1 :=
  if im = "rw" ∨ im = "stmt" then
    let t1 := dbInsert t0 1 1
    let tr1 : List OpV1 := [insertOpOf im]
    if dm = "stmt-mutation" ∨ dm = "apply" ∨ dm = "stmt-dml" then
      let t2 := dbDelete t1 1
      ⟨verifyStep (readRowT t2 1), t2, tr1 ++ [.deleteOp dm 1, .readRow 1]⟩
    else
      ⟨.error ("unknown delete mode: " ++ dm), t1, tr1⟩
  else
    ⟨.error ("unknown insert mode: " ++ im), t0, []⟩

/-! ### Helper lemmas -/

lemma matchesPASS_setup (e : String) : matchesPASS ("Setup: " ++ e) = false := rfl

lemma msgIsDataLoss_read (m : String) : msgIsDataLoss ("read: " ++ m) = false := rfl

lemma msgIsDataLoss_scan (m : String) : msgIsDataLoss ("scan: " ++ m) = false := rfl

lemma msgIsDataLoss_bug (pk : Int) : msgIsDataLoss (bugMsg pk) = true := rfl

lemma validBegin_cases {bm : String} (h : validBegin bm = true) :
    bm = "default" ∨ bm = "inlined" ∨ bm = "explicit" := by
  simpa [validBegin, Bool.or_eq_true, beq_iff_eq, or_assoc] using h

lemma runPoints_map_fst {f : PointV2 → RunOutcome} :
    ∀ {ps : List PointV2} {rs : List (PointV2 × Verdict)},
      runPoints f ps = some rs → rs.map Prod.fst = ps := by
  intro ps
  induction ps with
  | nil => intro rs h; simp [runPoints] at h; simp [← h]
  | cons p ps ih =>
    intro rs h
    simp only [runPoints] at h
    cases hr : runTest f p with
    | none => rw [hr] at h; exact absurd h (by simp)
    | some v =>
      rw [hr] at h
      cases hrec : runPoints f ps with
      | none => rw [hrec] at h; exact absurd h (by simp)
      | some rs' =>
        rw [hrec] at h
        obtain rfl : (p, v) :: rs' = rs := by simpa using h
        simp [ih hrec]

lemma runPoints_isSome {f : PointV2 → RunOutcome} :
    ∀ {ps : List PointV2}, (∀ p ∈ ps, f p ≠ .dockerFail) →
      (runPoints f ps).isSome = true := by
  intro ps
  induction ps with
  | nil => intro _; simp [runPoints]
  | cons p ps ih =>
    intro h
    have hp : f p ≠ .dockerFail := h p (by simp)
    have hps := ih fun q hq => h q (by simp [hq])
    simp only [runPoints, runTest]
    cases hf : f p with
    | dockerFail => exact absurd hf hp
    | out ls =>
      cases hrec : runPoints f ps with
      | none => rw [hrec] at hps; simp at hps
      | some rs => simp

lemma runPoints_none_of_dockerFail {f : PointV2 → RunOutcome} :
    ∀ {ps : List PointV2}, (∃ p ∈ ps, f p = .dockerFail) →
      runPoints f ps = none := by
  intro ps
  induction ps with
  | nil => intro h; simp at h
  | cons p ps ih =>
    intro h
    simp only [runPoints, runTest]
    cases hf : f p with
    | dockerFail => rfl
    | out ls =>
      have : ∃ q ∈ ps, f q = .dockerFail := by
        rcases h with ⟨q, hq, hfq⟩
        rcases List.mem_cons.mp hq with rfl | hq'
        · rw [hf] at hfq; exact absurd hfq (by simp)
        · exact ⟨q, hq', hfq⟩
      rw [ih this]

/-! ### Claim theorems -/

/-- Claim C1, counterexample: a final line that merely begins with `PASS`
but is not the 4-character string `PASS` is still classified PASS by the
orchestrator's `grep -q "^PASS"`, contradicting the claim that it
classifies BUG. -/
theorem c1_counterexample :
    classify ["PASS: but the row is still there"] = Verdict.PASS ∧
      "PASS: but the row is still there" ≠ "PASS" := by
  decide

/-- Claim C1 (amended): the orchestrator classifies a run PASS iff its
final output line begins with `PASS` (the `grep` pattern `^PASS` is a
prefix match, not an exact match); in particular an exactly-`PASS` final
line classifies PASS, and an empty output classifies BUG. -/
theorem c1_tail_line_classification :
    (∀ out l, out.getLast? = some l →
      (classify out = Verdict.PASS ↔ matchesPASS l = true)) ∧
    classify ["PASS"] = Verdict.PASS ∧ classify [] = Verdict.BUG := by
  refine ⟨fun out l h => ?_, by decide, by decide⟩
  simp only [classify, h]
  cases hm : matchesPASS l <;> simp [hm]

/-- Witness for C1's amended theorem at a concrete run. -/
theorem c1_tail_line_classification_witness :
    classify ["Building...", "PASS"] = Verdict.PASS :=
  (c1_tail_line_classification.1 ["Building...", "PASS"] "PASS" (by decide)).mpr
    (by decide)

/-- Claim C2, counterexample: the variant-2 enumeration has 30 points, not
`3*4*3 - 2 = 34` — the apply exclusion removes two begin values for each of
the three session modes. -/
theorem c2_counterexample :
    enumV2.length = 30 ∧ ¬ enumV2.length = 3 * 4 * 3 - 2 := by
  decide

/-- Claim C2 (amended): the variant-2 enumeration is exactly the cartesian
product of the three axes minus the points with `delete = apply` and
`begin ≠ default`, and its size is `3*4*3 - 3*2 = 30` (the exclusion
removes 2 points per session-mode value). -/
theorem c2_enumeration_count :
    enumV2 = fullProductV2.filter
      (fun p => !(p.deleteMode == "apply" && p.beginMode != "default")) ∧
    enumV2.length = 3 * 4 * 3 - 3 * 2 := by
  decide

/-- Claim C10: when `SPANNER_EMULATOR_HOST` is unset or empty, the runner
terminates with `SPANNER_EMULATOR_HOST is not set` as its only (hence last)
output line, performs no setup or backend operation (empty trace, table
untouched, result independent of the setup outcome), and the tail-line rule
classifies such a run BUG. -/
theorem c10_env_guard :
    ∀ (cfg : HarnessCfg) (dm bm : String) (t0 : Table),
      getenv cfg.emulatorHost = "" →
      mainGo cfg dm bm t0 = ⟨["SPANNER_EMULATOR_HOST is not set"], [], t0⟩ ∧
      classify (mainGo cfg dm bm t0).output = Verdict.BUG := by
  intro cfg dm bm t0 h
  have hm : mainGo cfg dm bm t0 = ⟨["SPANNER_EMULATOR_HOST is not set"], [], t0⟩ := by
    simp [mainGo, h]
  refine ⟨hm, ?_⟩
  rw [hm]
  show classify ["SPANNER_EMULATOR_HOST is not set"] = Verdict.BUG
  decide

/-- Witness for C10 at a concrete unset environment. -/
theorem c10_env_guard_witness :
    mainGo ⟨none, false, none⟩ "stmt-mutation" "default" [] =
      ⟨["SPANNER_EMULATOR_HOST is not set"], [], []⟩ ∧
    classify (mainGo ⟨none, false, none⟩ "stmt-mutation" "default" []).output =
      Verdict.BUG :=
  c10_env_guard ⟨none, false, none⟩ "stmt-mutation" "default" [] (by decide)



/-- Claim C3: the verification step succeeds iff the point read reports the
distinguished NotFound status; a returned row yields the data-loss defect
message naming the still-present key, carrying the `BUG:` label that
distinguishes it from generic step errors; any other read error and any
scan error propagate with their step label (`read:` / `scan:`) and without
the data-loss label. -/
theorem c3_verify_classification :
    (∀ res, verifyStep res = .ok () ↔ ∃ m, res = .error (ErrCode.notFound, m)) ∧
    (∀ (r : RowData) (pk : Int), r.col0 = .ok pk →
      verifyStep (.ok r) = .error (bugMsg pk) ∧ msgIsDataLoss (bugMsg pk) = true) ∧
    (∀ m, verifyStep (.error (ErrCode.other, m)) = .error ("read: " ++ m) ∧
      msgIsDataLoss ("read: " ++ m) = false) ∧
    (∀ (r : RowData) (e : String), r.col0 = .error e →
      verifyStep (.ok r) = .error ("scan: " ++ e) ∧
      msgIsDataLoss ("scan: " ++ e) = false) := by
  refine ⟨fun res => ?_, fun r pk h => ?_, fun m => ?_, fun r e h => ?_⟩
  · constructor
    · intro h
      match res with
      | .error (c, m) =>
        cases c with
        | notFound => exact ⟨m, rfl⟩
        | other => simp [verifyStep] at h
      | .ok r =>
        rcases hc : r.col0 with e | pk <;> simp [verifyStep, hc] at h
    · rintro ⟨m, rfl⟩
      simp [verifyStep]
  · exact ⟨by simp [verifyStep, h], msgIsDataLoss_bug pk⟩
  · exact ⟨by simp [verifyStep], msgIsDataLoss_read m⟩
  · exact ⟨by simp [verifyStep, h], msgIsDataLoss_scan e⟩

/-- Witness for C3 at concrete read outcomes. -/
theorem c3_verify_classification_witness :
    verifyStep (.error (ErrCode.notFound, "row not found")) = .ok () ∧
    verifyStep (.ok ⟨.ok 1⟩) = .error (bugMsg 1) ∧
    verifyStep (.error (ErrCode.other, "deadline exceeded")) =
      .error ("read: " ++ "deadline exceeded") ∧
    verifyStep (.ok ⟨.error "bad column"⟩) = .error ("scan: " ++ "bad column") :=
  ⟨(c3_verify_classification.1 (.error (ErrCode.notFound, "row not found"))).mpr
      ⟨"row not found", rfl⟩,
    (c3_verify_classification.2.1 ⟨.ok 1⟩ 1 rfl).1,
    (c3_verify_classification.2.2.1 "deadline exceeded").1,
    (c3_verify_classification.2.2.2 ⟨.error "bad column"⟩ "bad column" rfl).1⟩

/-- Claim C6: the variant-2 enumerator emits an `apply` point only with the
default begin strategy, exactly one `apply` representative per session
mode, and on such points the runner's delete is `client.Apply`, recorded as
`Op.applyDelete` — a constructor carrying no begin-strategy parameter — so
the trace is the same for every valid begin mode. -/
theorem c6_apply_exclusion :
    (∀ p ∈ enumV2, p.deleteMode = "apply" → p.beginMode = "default") ∧
    (∀ rw ∈ rwEnvList,
      (enumV2.filter fun p => p.rw == rw && p.deleteMode == "apply").length = 1) ∧
    (∀ (bm : String) (t0 : Table), validBegin bm = true →
      (reproduce "apply" bm t0).trace =
        [Op.insertDML 1 1, Op.applyDelete 1, Op.readRow 1]) := by
  refine ⟨by decide, by decide, fun bm t0 h => ?_⟩
  rcases validBegin_cases h with rfl | rfl | rfl <;> rfl

/-- Witness for C6 at concrete points. -/
theorem c6_apply_exclusion_witness :
    (⟨"true", "apply", "default"⟩ : PointV2).beginMode = "default" ∧
    (enumV2.filter fun p => p.rw == "false" && p.deleteMode == "apply").length = 1 ∧
    (reproduce "apply" "explicit" []).trace =
      [Op.insertDML 1 1, Op.applyDelete 1, Op.readRow 1] :=
  ⟨c6_apply_exclusion.1 ⟨"true", "apply", "default"⟩ (by decide) rfl,
    c6_apply_exclusion.2.1 "false" (by decide),
    c6_apply_exclusion.2.2 "explicit" [] (by decide)⟩

/-- Claim C9, counterexample: an invocation with `-delete=bogus` and
`-begin=bogus` fails on the begin flag before Step 1 — no insert is
performed, the table is untouched, and the reported error is not the
unknown-delete-mode one — so the claim does not hold of every invocation
with an out-of-set `-delete` value. -/
theorem c9_counterexample :
    reproduce "bogus" "bogus" [] =
      ⟨.error ("unknown begin mode: bogus"), [], [], []⟩ ∧
    Op.insertDML 1 1 ∉ (reproduce "bogus" "bogus" []).trace := by
  decide

/-- Claim C9 (amended): for every invocation whose `-begin` value is valid
(`default`/`inlined`/`explicit`) and whose `-delete` value is outside
`{stmt-mutation, rw-mutation, apply, stmt-dml}`, the runner first performs
the Step 1 INSERT of row (1, 1) and only then reports the
unknown-delete-mode error, leaving the inserted row in the table; with an
invalid `-begin` value the runner instead fails before the insert. -/
theorem c9_late_delete_validation :
    (∀ (dm bm : String) (t0 : Table), validBegin bm = true →
      dm ≠ "stmt-mutation" → dm ≠ "rw-mutation" → dm ≠ "apply" → dm ≠ "stmt-dml" →
      reproduce dm bm t0 =
        ⟨.error ("unknown delete mode: " ++ dm), dbInsert t0 1 1,
          [Op.insertDML 1 1], ["INSERT: ReadWriteTransaction (DML)"]⟩ ∧
      (1, 1) ∈ (reproduce dm bm t0).table) ∧
    (∀ (dm bm : String) (t0 : Table), validBegin bm = false →
      reproduce dm bm t0 = ⟨.error ("unknown begin mode: " ++ bm), t0, [], []⟩) := by
  constructor
  · intro dm bm t0 hv h1 h2 h3 h4
    have hr : reproduce dm bm t0 =
        ⟨.error ("unknown delete mode: " ++ dm), dbInsert t0 1 1,
          [Op.insertDML 1 1], ["INSERT: ReadWriteTransaction (DML)"]⟩ := by
      rcases validBegin_cases hv with rfl | rfl | rfl <;>
        simp [reproduce, parseBeginOption, h1, h2, h3, h4]
    refine ⟨hr, ?_⟩
    rw [hr]
    simp [dbInsert]
  · intro dm bm t0 hv
    have h1 : bm ≠ "default" := by
      intro h; rw [h] at hv; simp [validBegin] at hv
    have h2 : bm ≠ "inlined" := by
      intro h; rw [h] at hv; simp [validBegin] at hv
    have h3 : bm ≠ "explicit" := by
      intro h; rw [h] at hv; simp [validBegin] at hv
    simp [reproduce, parseBeginOption, h1, h2, h3]

/-- Witness for C9's amended theorem at a concrete invocation. -/
theorem c9_late_delete_validation_witness :
    (reproduce "mutation" "explicit" [] =
      ⟨.error ("unknown delete mode: " ++ "mutation"), dbInsert [] 1 1,
        [Op.insertDML 1 1], ["INSERT: ReadWriteTransaction (DML)"]⟩ ∧
      (1, 1) ∈ (reproduce "mutation" "explicit" []).table) ∧
    reproduce "apply" "bogus" [] =
      ⟨.error ("unknown begin mode: " ++ "bogus"), [], [], []⟩ :=
  ⟨c9_late_delete_validation.1 "mutation" "explicit" [] (by decide)
      (by decide) (by decide) (by decide) (by decide),
    c9_late_delete_validation.2 "apply" "bogus" [] (by decide)⟩



/-- Claim C4 (spec-modelled variant-1 runner): `rw` selects the
declarative-transaction insert and `stmt` the statement-based one, and for
every enumerated variant-1 point the runner inserts row (1, 1) with the
point's selected insert method and then proceeds to the delete and
verification steps (here completing the whole scenario successfully on a
healthy backend). -/
theorem c4_insert_dispatch :
    insertOpOf "rw" = OpV1.insertRWTxn 1 1 ∧
    insertOpOf "stmt" = OpV1.insertStmtTxn 1 1 ∧
    (∀ p ∈ enumV1,
      (reproduceV1 p.insertMode p.deleteMode []).trace =
        [insertOpOf p.insertMode, OpV1.deleteOp p.deleteMode 1, OpV1.readRow 1] ∧
      (reproduceV1 p.insertMode p.deleteMode []).res = .ok ()) := by
  refine ⟨rfl, rfl, ?_⟩
  decide

/-- Witness for C4 at a concrete variant-1 point. -/
theorem c4_insert_dispatch_witness :
    (reproduceV1 "stmt" "apply" []).trace =
      [insertOpOf "stmt", OpV1.deleteOp "apply" 1, OpV1.readRow 1] ∧
    (reproduceV1 "stmt" "apply" []).res = .ok () :=
  c4_insert_dispatch.2.2 ⟨"false", "stmt", "apply"⟩ (by decide)

/-- Claim C5, counterexample: a run in which every scenario point's runner
fails during instance/database/schema creation (terminal line
`Setup: rpc error: unavailable`) is not aborted — the orchestrator
completes all 30 points and folds each of them into the classification as
BUG. -/
theorem c5_counterexample :
    runAllV2 (fun _ => .out ["Setup: rpc error: unavailable"]) =
      some (enumV2.map fun p => (p, Verdict.BUG)) ∧
    (runAllV2 (fun _ => .out ["Setup: rpc error: unavailable"])).isSome = true := by
  decide

/-- Claim C5 (amended): an instance/database/schema-creation failure
terminates only that point's scenario-runner process, with last line
`Setup: <error>`, which the orchestrator folds into the classification as
BUG and then continues; the harness run aborts as a whole exactly when a
backend container start fails. -/
theorem c5_setup_failure_semantics :
    (∀ (cfg : HarnessCfg) (dm bm : String) (t0 : Table) (e : String),
      getenv cfg.emulatorHost ≠ "" → cfg.skipSetup = false →
      cfg.setupErr = some e →
      (mainGo cfg dm bm t0).output = ["Setup: " ++ e] ∧
      classify (mainGo cfg dm bm t0).output = Verdict.BUG) ∧
    (∀ f, (∃ p ∈ enumV2, f p = .dockerFail) → runAllV2 f = none) ∧
    (∀ f, (∀ p ∈ enumV2, f p ≠ .dockerFail) → (runAllV2 f).isSome = true) := by
  refine ⟨fun cfg dm bm t0 e hh hs he => ?_, fun f h => runPoints_none_of_dockerFail h,
    fun f h => runPoints_isSome h⟩
  have hm : (mainGo cfg dm bm t0).output = ["Setup: " ++ e] := by
    simp [mainGo, hh, hs, he]
  refine ⟨hm, ?_⟩
  rw [hm]
  simp [classify, matchesPASS_setup]

/-- Witness for C5's amended theorem at concrete runs. -/
theorem c5_setup_failure_semantics_witness :
    ((mainGo ⟨some "localhost:9010", false, some "rpc error"⟩ "apply" "default" []).output
        = ["Setup: " ++ "rpc error"] ∧
      classify (mainGo ⟨some "localhost:9010", false, some "rpc error"⟩
        "apply" "default" []).output = Verdict.BUG) ∧
    runAllV2 (fun _ => .dockerFail) = none ∧
    (runAllV2 (fun _ => .out ["PASS"])).isSome = true :=
  ⟨c5_setup_failure_semantics.1 ⟨some "localhost:9010", false, some "rpc error"⟩
      "apply" "default" [] "rpc error" (by decide) rfl rfl,
    c5_setup_failure_semantics.2.1 (fun _ => .dockerFail)
      ⟨⟨"true", "stmt-mutation", "default"⟩, by decide, rfl⟩,
    c5_setup_failure_semantics.2.2 (fun _ => .out ["PASS"]) (fun p _ => by simp)⟩

/-- Claim C7, counterexample: in `execStmtDML` a commit failure after a
successful begin is propagated to the caller with no rollback in the
operation trace, contradicting the claim that every post-begin failure
(including the commit itself) is rolled back before propagation. -/
theorem c7_counterexample :
    execStmtDML ⟨none, none, some "commit deadline exceeded"⟩ =
      (.error "commit deadline exceeded",
        [TxnOp.beginTxn, TxnOp.queryStep, TxnOp.commitStep]) ∧
    TxnOp.rollbackStep ∉ (execStmtDML ⟨none, none, some "commit deadline exceeded"⟩).2 := by
  decide

/-- Claim C7 (amended): in both statement-based transaction paths, a
failure of the work step after a successful begin (`Query` iteration in
`execStmtDML`, `BufferWrite` in `execStmtMutation`) triggers an explicit
rollback before the wrapped error is propagated; a commit failure, by
contrast, is propagated as-is without a rollback. -/
theorem c7_rollback_semantics :
    (∀ (e : TxnEnv) (m : String), e.beginErr = none → e.stepErr = some m →
      execStmtDML e =
        (.error ("query: " ++ m), [TxnOp.beginTxn, TxnOp.queryStep, TxnOp.rollbackStep]) ∧
      execStmtMutation e =
        (.error ("buffer write: " ++ m),
          [TxnOp.beginTxn, TxnOp.bufferStep, TxnOp.rollbackStep])) ∧
    (∀ (e : TxnEnv) (m : String), e.beginErr = none → e.stepErr = none →
      e.commitErr = some m →
      execStmtDML e = (.error m, [TxnOp.beginTxn, TxnOp.queryStep, TxnOp.commitStep]) ∧
      execStmtMutation e =
        (.error m, [TxnOp.beginTxn, TxnOp.bufferStep, TxnOp.commitStep])) := by
  constructor
  · intro e m hb hs
    exact ⟨by simp [execStmtDML, hb, hs], by simp [execStmtMutation, hb, hs]⟩
  · intro e m hb hs hc
    exact ⟨by simp [execStmtDML, hb, hs, hc], by simp [execStmtMutation, hb, hs, hc]⟩

/-- Witness for C7's amended theorem at concrete fault assignments. -/
theorem c7_rollback_semantics_witness :
    (execStmtDML ⟨none, some "stream broken", none⟩ =
      (.error ("query: " ++ "stream broken"),
        [TxnOp.beginTxn, TxnOp.queryStep, TxnOp.rollbackStep]) ∧
     execStmtMutation ⟨none, some "stream broken", none⟩ =
      (.error ("buffer write: " ++ "stream broken"),
        [TxnOp.beginTxn, TxnOp.bufferStep, TxnOp.rollbackStep])) ∧
    (execStmtDML ⟨none, none, some "aborted"⟩ =
      (.error "aborted", [TxnOp.beginTxn, TxnOp.queryStep, TxnOp.commitStep]) ∧
     execStmtMutation ⟨none, none, some "aborted"⟩ =
      (.error "aborted", [TxnOp.beginTxn, TxnOp.bufferStep, TxnOp.commitStep])) :=
  ⟨c7_rollback_semantics.1 ⟨none, some "stream broken", none⟩ "stream broken" rfl rfl,
    c7_rollback_semantics.2 ⟨none, none, some "aborted"⟩ "aborted" rfl rfl rfl⟩

/-- Claim C8: a full (non-aborted) orchestrator run produces exactly one
result per enumerated point — the result list is as long as the enumeration
and its points appear in enumeration order. -/
theorem c8_result_invariant :
    ∀ (f : PointV2 → RunOutcome) (rs : List (PointV2 × Verdict)),
      runAllV2 f = some rs →
      rs.length = enumV2.length ∧ rs.map Prod.fst = enumV2 := by
  intro f rs h
  have hfst : rs.map Prod.fst = enumV2 := runPoints_map_fst h
  refine ⟨?_, hfst⟩
  calc rs.length = (rs.map Prod.fst).length := (List.length_map _ _).symm
    _ = enumV2.length := by rw [hfst]

/-- Witness for C8 on a concrete full run. -/
theorem c8_result_invariant_witness :
    (enumV2.map fun p => (p, Verdict.PASS)).length = enumV2.length ∧
    (enumV2.map fun p => (p, Verdict.PASS)).map Prod.fst = enumV2 :=
  c8_result_invariant (fun _ => .out ["PASS"])
    (enumV2.map fun p => (p, Verdict.PASS)) (by decide)

end MuxRepro
